import Mathlib

/-!
Shallow embedding of the `fs.gitfs` package (GitFS: a read-only git
filesystem for pyfilesystem2) and proofs of the specification claims.

The embedding follows the Python sources:
  * `fs/gitfs/objects.py`  — `GitInfo`, `GitObject` and its variants
  * `fs/gitfs/gitfile.py`  — `GitFile` (read-only content stream)
  * `fs/gitfs/gitfs.py`    — `GitFS` facade

Python exceptions are modelled by an explicit error type `PyErr`; a method
that raises returns `Except.error`.  Machine state never mutates in the
sources (the filesystem is read-only), so operations are pure functions of
the repository value.
-/

set_option autoImplicit false
set_option linter.unusedVariables false

/-- The Python exceptions that can arise in the gitfs code paths:
the four taxonomy errors of the host framework (`fs.errors` /
`io.UnsupportedOperation`), the framework path-validation errors, and the
raw, untyped failures of the collaborator libraries (`KeyError`,
`IndexError`, `NotImplementedError`, `AttributeError`).  `fileExists` is
included because the host taxonomy declares it for exclusive-mode opens. -/
inductive PyErr where
  | resourceNotFound (path : String)
  | directoryExpected (path : String)
  | fileExpected (path : String)
  | resourceReadOnly (path : String)
  | fileExists (path : String)
  | unsupportedOperation (op : String)
  | invalidCharsInPath (path : String)
  | illegalBackReference (path : String)
  | keyError (key : String)
  | indexError
  | notImplementedError
  | attributeError (attr : String)
  deriving DecidableEq, Repr

/-- The four error kinds of the host taxonomy that the spec allows the
facade to surface (NotFound, DirectoryExpected, FileExpected,
ReadOnly/UnsupportedOperation). -/
def PyErr.isTaxonomy : PyErr → Bool
  | .resourceNotFound _ => true
  | .directoryExpected _ => true
  | .fileExpected _ => true
  | .resourceReadOnly _ => true
  | .unsupportedOperation _ => true
  | _ => false

def PyErr.isFileExists : PyErr → Bool
  | .fileExists _ => true
  | _ => false

/-! ## The git object store (collaborator model, GitPython)

A blob carries its native name, size, mode and byte content; a tree carries
its native name, size, mode and its sub-tree and blob collections in the
store's native order (`tree.trees`, `tree.blobs`). -/

structure GBlob where
  name : String
  size : Nat
  mode : Nat
  data : List Nat
  deriving DecidableEq, Repr

inductive GTree where
  | node (name : String) (size : Nat) (mode : Nat)
      (trees : List GTree) (blobs : List GBlob)

def GTree.name : GTree → String
  | .node n _ _ _ _ => n

def GTree.size : GTree → Nat
  | .node _ s _ _ _ => s

def GTree.mode : GTree → Nat
  | .node _ _ m _ _ => m

def GTree.trees : GTree → List GTree
  | .node _ _ _ ts _ => ts

def GTree.blobs : GTree → List GBlob
  | .node _ _ _ _ bs => bs

structure Commit where
  tree : GTree

structure Ref where
  name : String
  commit : Commit

structure Remote where
  name : String
  refs : List Ref

/-- A repository handle: `repo.head.commit`, `repo.tags`, `repo.branches`,
`repo.remotes`.  The model assumes the repository has a HEAD commit. -/
structure Repo where
  headCommit : Commit
  tags : List Ref
  branches : List Ref
  remotes : List Remote

/-- `tree[name]` (GitPython `Tree.__getitem__` by name): returns the child
tree or blob with the given native name, raising `KeyError` if absent. -/
def GTree.getChild (t : GTree) (name : String) : Except PyErr (GTree ⊕ GBlob) :=
  match t.trees.find? (fun c => c.name == name) with
  | some c => .ok (.inl c)
  | none =>
    match t.blobs.find? (fun b => b.name == name) with
    | some b => .ok (.inr b)
    | none => .error (.keyError name)

/-- GitPython `IterableList.__getitem__` by name: raises `IndexError`
when no element carries the requested name. -/
def iterableGet {α : Type} (getName : α → String) (xs : List α) (name : String) :
    Except PyErr α :=
  match xs.find? (fun x => getName x == name) with
  | some x => .ok x
  | none => .error .indexError

/-! ## Resource Descriptor Builder (`GitInfo`, objects.py lines 30-56) -/

/-- The native metadata of a raw store object as read by `GitInfo`:
`name`, `type` (git object kind string), `size`, `mode`. -/
structure RawObj where
  name : String
  type : String
  size : Nat
  mode : Nat
  deriving DecidableEq, Repr

def GTree.raw (t : GTree) : RawObj := ⟨t.name, "tree", t.size, t.mode⟩

def GBlob.raw (b : GBlob) : RawObj := ⟨b.name, "blob", b.size, b.mode⟩

/-- pyfilesystem2 `fs.enums.ResourceType.directory` (external collaborator
contract: `unknown = 0`, `directory = 1`, `file = 2`). -/
def ResourceTypeDirectory : Nat := 1

/-- pyfilesystem2 `fs.enums.ResourceType.file`. -/
def ResourceTypeFile : Nat := 2

/-- The content of the `Info` record built by `GitInfo.__init__`:
basic namespace (`name`, `is_dir`), details namespace (`type`, `size`),
access namespace (permissions derived from `mode`).  The basic name is
`Option` because Python's `git_obj.name or name` can produce `None`. -/
structure Info where
  name : Option String
  is_dir : Bool
  typ : Nat
  size : Nat
  mode : Nat
  deriving DecidableEq, Repr

/-- `GitInfo(git_obj, name=None)`: builds the three namespaces from the raw
object, with `name` as the fallback when the object's native name is falsy
(the empty string). -/
def GitInfo (git_obj : RawObj) (name : Option String) : Info :=
  { name := if git_obj.name = "" then name else some git_obj.name
    is_dir := git_obj.type != "blob"
    typ := if git_obj.type != "blob" then ResourceTypeDirectory else ResourceTypeFile
    size := git_obj.size
    mode := git_obj.mode }

/-- `GitInfo.is_writeable`: every key of every namespace is read-only. -/
def Info.is_writeable (info : Info) (namespc key : String) : Bool := false

/-! ## Content Stream Adapter (`GitFile`, gitfile.py) -/

/-- `GitFile`: a `BytesIO` over the blob's bytes, with the read position.
State-mutating methods thread the stream state explicitly. -/
structure GitFile where
  data : List Nat
  pos : Nat
  deriving DecidableEq, Repr

/-- `GitFile.__init__`: materializes the blob content from the object
database and starts at position 0. -/
def GitFile.ofBlob (b : GBlob) : GitFile := ⟨b.data, 0⟩

def GitFile.readable (f : GitFile) : Bool := true

def GitFile.writable (f : GitFile) : Bool := false

/-- `GitFile.write`: raises `io.UnsupportedOperation("write")` before
touching the buffer; the returned stream state is the input state. -/
def GitFile.write (f : GitFile) (data : List Nat) : Except PyErr Nat × GitFile :=
  (.error (.unsupportedOperation "write"), f)

/-- `GitFile.writelines`: raises `io.UnsupportedOperation("write")` before
touching the buffer; the returned stream state is the input state. -/
def GitFile.writelines (f : GitFile) (lines : List (List Nat)) :
    Except PyErr Unit × GitFile :=
  (.error (.unsupportedOperation "write"), f)

/-! ## Virtual Node Hierarchy (`GitObject` and variants, objects.py) -/

/-- The closed set of node classes instantiated by the code:
`RootDir`, `Blob`, `TreeDir`, `RefsDir`, `RemotesDir`, `ObjectsDir`.
(`VDir` itself is only ever constructed through its subclasses.)
A `TreeDir(name, commit)` built without an explicit tree uses
`commit.tree`, which the constructors below pass explicitly. -/
inductive GitObject where
  | root (repo : Repo)
  | blob (b : GBlob)
  | treeDir (name : String) (commit : Commit) (tree : GTree)
  | refsDir (name : String) (refs : List Ref)
  | remotesDir (name : String) (remotes : List Remote)
  | objectsDir (name : String) (repo : Repo)

/-- `RootDir.children`: the fixed, ordered name-to-constructor mapping,
applied to the repository (the Python dict holds lambdas; applying them is
pure here, so the list is built directly). -/
def rootChildren (repo : Repo) : List (String × GitObject) :=
  [("head", .treeDir "head" repo.headCommit repo.headCommit.tree),
   ("tags", .refsDir "tags" repo.tags),
   ("branches", .refsDir "branches" repo.branches),
   ("remotes", .remotesDir "remotes" repo.remotes),
   ("objects", .objectsDir "objects" repo)]

/-- The declared child names of the root, in declaration order. -/
def rootChildrenNames : List String := ["head", "tags", "branches", "remotes", "objects"]

/-- `RootDir.get`: `self.children[name]` — a dict lookup that raises
`KeyError` for unknown names — then applies the constructor. -/
def RootDir.get (repo : Repo) (name : String) : Except PyErr GitObject :=
  match (rootChildren repo).lookup name with
  | some obj => .ok obj
  | none => .error (.keyError name)

/-- `GitObject.get` dispatched over the node classes:
  * `RootDir.get`: dict lookup in the fixed children mapping;
  * `TreeDir.get`: `self.tree[name]`, wrapping a blob child as `Blob` and a
    tree child as `TreeDir(name, self.commit, tree)`;
  * `RefsDir.get`: `self.refs[name].commit`, then `TreeDir(name, commit)`
    (whose tree is `commit.tree`);
  * `RemotesDir.get`: `self.remotes[name].refs`, then `RefsDir(name, refs)`;
  * `ObjectsDir.get`: evaluates `self.remotes[name]`, but `ObjectsDir` has
    no attribute `remotes` (its constructor stores `self.repo`), so CPython
    raises `AttributeError` before any lookup happens;
  * `Blob`: inherits the abstract `GitObject.get`, which raises
    `NotImplementedError`. -/
def GitObject.get : GitObject → String → Except PyErr GitObject
  | .root repo, name => RootDir.get repo name
  | .treeDir _ commit tree, name =>
    match tree.getChild name with
    | .ok (.inr b) => .ok (.blob b)
    | .ok (.inl sub) => .ok (.treeDir name commit sub)
    | .error e => .error e
  | .refsDir _ refs, name =>
    match iterableGet Ref.name refs name with
    | .ok r => .ok (.treeDir name r.commit r.commit.tree)
    | .error e => .error e
  | .remotesDir _ remotes, name =>
    match iterableGet Remote.name remotes name with
    | .ok r => .ok (.refsDir name r.refs)
    | .error e => .error e
  | .objectsDir _ _, _ => .error (.attributeError "remotes")
  | .blob _, _ => .error .notImplementedError

/-- The raw metadata a `VDir` presents to `GitInfo` when passing itself:
`VDir.__init__` sets `type = "dir"`, `size = 0`, `mode = 16384`. -/
def vdirRaw (name : String) : RawObj := ⟨name, "dir", 0, 16384⟩

/-- `getinfo` dispatched over the node classes.  Every instantiated class
overrides the abstract method, so this is total:
  * `VDir.getinfo` (root, refs, remotes, objects): `GitInfo(self)`;
  * `Blob.getinfo`: `GitInfo(self.blob)`;
  * `TreeDir.getinfo`: `GitInfo(self.tree, name=self.name)`. -/
def GitObject.getinfo : GitObject → Info
  | .root _ => GitInfo (vdirRaw "/") none
  | .refsDir name _ => GitInfo (vdirRaw name) none
  | .remotesDir name _ => GitInfo (vdirRaw name) none
  | .objectsDir name _ => GitInfo (vdirRaw name) none
  | .blob b => GitInfo b.raw none
  | .treeDir name _ tree => GitInfo tree.raw (some name)

/-- `fs.path.split(path)[1]`: the part of the path after the last slash
(the whole path when it contains no slash). -/
def splitOnChar (c : Char) : List Char → List (List Char)
  | [] => [[]]
  | x :: xs =>
    if x = c then [] :: splitOnChar c xs
    else
      match splitOnChar c xs with
      | [] => [[x]]
      | y :: ys => (x :: y) :: ys

def fsPathBasename (path : String) : String :=
  String.mk ((splitOnChar '/' path.data).getLastD [])

/-- `scandir` dispatched over the node classes:
  * `RootDir.scandir`: yields `fn(self.repo).getinfo()` for each entry of
    the children mapping, in declaration order;
  * `TreeDir.scandir`: yields the sub-trees of `self.tree`, then its blobs;
  * `RefsDir.scandir`: yields `GitInfo(ref.commit.tree, name=basename)` for
    each ref, where basename comes from `fs.path.split(ref.name)`;
  * `RemotesDir.scandir`: yields `RefsDir(ref.name, ref.refs).getinfo()`;
  * `ObjectsDir` (own `scandir` commented out) and `Blob` inherit the
    abstract `GitObject.scandir`, which raises `NotImplementedError`. -/
def GitObject.scandir : GitObject → Except PyErr (List Info)
  | .root repo => .ok ((rootChildren repo).map (fun p => p.2.getinfo))
  | .treeDir _ _ tree =>
    .ok (tree.trees.map (fun t => GitInfo t.raw none)
         ++ tree.blobs.map (fun b => GitInfo b.raw none))
  | .refsDir _ refs =>
    .ok (refs.map (fun r => GitInfo r.commit.tree.raw (some (fsPathBasename r.name))))
  | .remotesDir _ remotes =>
    .ok (remotes.map (fun r => (GitObject.refsDir r.name r.refs).getinfo))
  | .objectsDir _ _ => .error .notImplementedError
  | .blob _ => .error .notImplementedError

/-- `openbin` dispatched over the node classes: `Blob.openbin` returns
`GitFile(self.blob)`; every other class inherits the abstract method,
which raises `NotImplementedError`. -/
def GitObject.openbin : GitObject → Except PyErr GitFile
  | .blob b => .ok (GitFile.ofBlob b)
  | _ => .error .notImplementedError

/-! ## Path handling (Python string ops and `fs.path` helpers) -/

/-- Python `path.strip("/")`: removes leading and trailing `/` characters. -/
def pyStripSlashes (s : String) : String :=
  String.mk (((s.data.dropWhile (fun c => c = '/')).reverse.dropWhile
    (fun c => c = '/')).reverse)

/-- Python `path.split("/")`: splits on every slash, keeping empty pieces
(so `""` gives `[""]` and `"a//b"` gives `["a", "", "b"]`). -/
def pySplitSlash (s : String) : List String :=
  (splitOnChar '/' s.data).map String.mk

/-- Python `path.startswith("/")`. -/
def startsWithSlash (s : String) : Bool :=
  match s.data with
  | c :: _ => c = '/'
  | [] => false

/-- `fs.path.abspath`: prepend a slash when the path is relative. -/
def abspath (path : String) : String :=
  if startsWithSlash path then path else "/" ++ path

/-- The component loop of `fs.path.normpath`: empty and `"."` components
are dropped, `".."` pops the last collected component, and popping an empty
list is the `IndexError` that `normpath` turns into `IllegalBackReference`
(returned as `none` here). -/
def normpathFold (comps : List String) : Option (List String) :=
  List.foldlM
    (fun acc comp =>
      if comp = "" ∨ comp = "." then some acc
      else if comp = ".." then
        match acc with
        | [] => none
        | _ => some acc.dropLast
      else some (acc ++ [comp]))
    [] comps

/-- `fs.path.normpath`: `""` and `"/"` are returned unchanged; otherwise
the components are normalized and re-joined behind the original leading
slash, raising `IllegalBackReference` when `".."` escapes the path.  (The
function's fast path, taken when no `"."`, `".."` or `"//"` occurs, returns
`path.rstrip("/")`, which coincides with the general loop.) -/
def normpath (path : String) : Except PyErr String :=
  if path = "" ∨ path = "/" then .ok path
  else
    match normpathFold (pySplitSlash path) with
    | none => .error (.illegalBackReference path)
    | some comps =>
      .ok ((if startsWithSlash path then "/" else "") ++ String.intercalate "/" comps)

/-- `FS.validatepath` as configured by `GitFS._meta`: reject paths holding
the NUL character (`invalid_path_chars`), then return
`abspath(normpath(path))`.  (No path-length limits are configured.) -/
def validatepath (path : String) : Except PyErr String :=
  if path.data.contains (Char.ofNat 0) then .error (.invalidCharsInPath path)
  else
    match normpath path with
    | .error e => .error e
    | .ok p => .ok (abspath p)

/-! ## Filesystem Facade (`GitFS`, gitfs.py) -/

/-- The `for part in path.split("/"): obj = obj.get(part)` loop of
`GitFS._get_obj_by_path`: the first raised error aborts the walk. -/
def walkPath : GitObject → List String → Except PyErr GitObject
  | obj, [] => .ok obj
  | obj, part :: rest =>
    match obj.get part with
    | .ok next => walkPath next rest
    | .error e => .error e

/-- The exception classes caught by `GitFS._get_obj_by_path`:
`IndexError`, `KeyError`, `NotImplementedError`. -/
def caughtByGetObj : PyErr → Bool
  | .indexError => true
  | .keyError _ => true
  | .notImplementedError => true
  | _ => false

/-- `GitFS._get_obj_by_path`: strip slashes; an empty remainder resolves to
the root node, otherwise walk the segments from the root.  A caught
exception is re-raised as `ResourceNotFound` carrying the stripped path;
any other exception propagates unchanged. -/
def GitFS.getObjByPath (repo : Repo) (path : String) : Except PyErr GitObject :=
  match (if pyStripSlashes path = "" then Except.ok (GitObject.root repo)
         else walkPath (.root repo) (pySplitSlash (pyStripSlashes path))) with
  | .ok obj => .ok obj
  | .error e =>
    if caughtByGetObj e then .error (.resourceNotFound (pyStripSlashes path))
    else .error e

/-- `GitFS.exists`: true on successful resolution, false on
`ResourceNotFound`; any other exception propagates. -/
def GitFS.exists (repo : Repo) (path : String) : Except PyErr Bool :=
  match GitFS.getObjByPath repo path with
  | .ok _ => .ok true
  | .error (.resourceNotFound _) => .ok false
  | .error e => .error e

/-- `GitFS.getinfo`: resolve, then `obj.getinfo(namespaces)` (the
namespaces argument is never consulted by any node class). -/
def GitFS.getinfo (repo : Repo) (path : String) : Except PyErr Info :=
  match GitFS.getObjByPath repo path with
  | .ok obj => .ok obj.getinfo
  | .error e => .error e

/-- `GitFS.listdir`: resolve, then collect `x.name` over `obj.scandir()`,
translating `NotImplementedError` into `DirectoryExpected` on the original
path argument. -/
def GitFS.listdir (repo : Repo) (path : String) : Except PyErr (List (Option String)) :=
  match GitFS.getObjByPath repo path with
  | .error e => .error e
  | .ok obj =>
    match obj.scandir with
    | .ok infos => .ok (infos.map Info.name)
    | .error .notImplementedError => .error (.directoryExpected path)
    | .error e => .error e

/-- `hasattr(obj, "scandir")`: the abstract base class defines `scandir`,
so the attribute exists on every instance of every node class. -/
def hasattrScandir (obj : GitObject) : Bool := true

/-- `GitFS.scandir`: resolve; raise `DirectoryExpected` when the node lacks
a `scandir` attribute (which never happens — see `hasattrScandir`); call
`obj.scandir()` with no exception handler, then apply the optional
`(start, end)` page with `itertools.islice`. -/
def GitFS.scandir (repo : Repo) (path : String) (page : Option (Nat × Nat)) :
    Except PyErr (List Info) :=
  match GitFS.getObjByPath repo path with
  | .error e => .error e
  | .ok obj =>
    if hasattrScandir obj then
      match obj.scandir with
      | .error e => .error e
      | .ok result =>
        match page with
        | none => .ok result
        | some (start, stop) => .ok ((result.take stop).drop start)
    else .error (.directoryExpected path)

/-- `GitFS.openbin`: validate the path (the only facade operation that
does), resolve, then `obj.openbin()`, translating `NotImplementedError`
into `FileExpected` on the validated path.  The `mode` argument (and
`buffering`/`options`, omitted here) is never consulted. -/
def GitFS.openbin (repo : Repo) (path : String) (mode : String) :
    Except PyErr GitFile :=
  match validatepath path with
  | .error e => .error e
  | .ok vpath =>
    match GitFS.getObjByPath repo vpath with
    | .error e => .error e
    | .ok obj =>
      match obj.openbin with
      | .error .notImplementedError => .error (.fileExpected vpath)
      | .error e => .error e
      | .ok f => .ok f

/-- `GitFS.makedir`: raises `ResourceReadOnly(path)` unconditionally. -/
def GitFS.makedir (repo : Repo) (path : String) (permissions : Option Nat)
    (recreate : Bool) : Except PyErr Unit :=
  .error (.resourceReadOnly path)

/-- `GitFS.remove`: raises `ResourceReadOnly(path)` unconditionally. -/
def GitFS.remove (repo : Repo) (path : String) : Except PyErr Unit :=
  .error (.resourceReadOnly path)

/-- `GitFS.removedir`: raises `ResourceReadOnly(path)` unconditionally. -/
def GitFS.removedir (repo : Repo) (path : String) : Except PyErr Unit :=
  .error (.resourceReadOnly path)

/-- `GitFS.setinfo`: raises `ResourceReadOnly(path)` unconditionally. -/
def GitFS.setinfo (repo : Repo) (path : String) (info : Info) : Except PyErr Unit :=
  .error (.resourceReadOnly path)

/-! ## A concrete repository for witnesses and counterexamples -/

def licenseBlob : GBlob := ⟨"LICENSE", 11, 33188, [77, 73, 84]⟩

def readmeBlob : GBlob := ⟨"README.md", 5, 33188, [35]⟩

def srcTree : GTree := .node "src" 30 16384 [] [readmeBlob]

/-- The root tree of a commit: its native name is the empty string
(GitPython derives a tree's name from its path, which is empty at the
root). -/
def demoRootTree : GTree := .node "" 62 16384 [srcTree] [licenseBlob]

def demoCommit : Commit := ⟨demoRootTree⟩

def demoRepo : Repo :=
  ⟨demoCommit, [⟨"v1.0", demoCommit⟩], [⟨"main", demoCommit⟩],
   [⟨"origin", [⟨"origin/main", demoCommit⟩]⟩]⟩

/-- The root directory descriptors of the demo repository, as enumerated by
`RootDir.scandir`. -/
def demoRootInfos : List Info :=
  [⟨some "head", true, 1, 62, 16384⟩,
   ⟨some "tags", true, 1, 0, 16384⟩,
   ⟨some "branches", true, 1, 0, 16384⟩,
   ⟨some "remotes", true, 1, 0, 16384⟩,
   ⟨some "objects", true, 1, 0, 16384⟩]

-- Concrete evaluations of the facade on the demo repository, mirroring the
-- behaviors exercised by the repository's test suite.
example : GitFS.exists demoRepo "/head/LICENSE" = .ok true := rfl
example : GitFS.exists demoRepo "/zzz" = .ok false := rfl
example : GitFS.exists demoRepo "/objects/x" = .error (.attributeError "remotes") := rfl
example : GitFS.scandir demoRepo "/head/LICENSE" none = .error .notImplementedError := rfl
example : GitFS.listdir demoRepo "/head/LICENSE" = .error (.directoryExpected "/head/LICENSE") := rfl
example : GitFS.listdir demoRepo "/objects/x/y" = .error (.attributeError "remotes") := rfl
example : GitFS.listdir demoRepo "/" =
  .ok [some "head", some "tags", some "branches", some "remotes", some "objects"] := rfl
example : GitFS.listdir demoRepo "/head" = .ok [some "src", some "LICENSE"] := rfl
example : GitFS.listdir demoRepo "/tags" = .ok [some "v1.0"] := rfl
example : GitFS.listdir demoRepo "/remotes" = .ok [some "origin"] := rfl
example : GitFS.listdir demoRepo "/remotes/origin" = .ok [some "main"] := rfl
example : GitFS.openbin demoRepo "/head/LICENSE" "w" = .ok ⟨[77, 73, 84], 0⟩ := rfl
example : GitFS.openbin demoRepo "head/LICENSE" "r" = .ok ⟨[77, 73, 84], 0⟩ := rfl
example : GitFS.openbin demoRepo "/head" "r" = .error (.fileExpected "/head") := rfl
example : GitFS.openbin demoRepo "/zzz" "r" = .error (.resourceNotFound "zzz") := rfl
example : GitFS.getinfo demoRepo "/head/LICENSE" =
  .ok ⟨some "LICENSE", false, 2, 11, 33188⟩ := rfl
example : GitFS.getinfo demoRepo "/objects" = .ok ⟨some "objects", true, 1, 0, 16384⟩ := rfl
example : GitFS.listdir demoRepo "/objects" = .error (.directoryExpected "/objects") := rfl
example : GitFS.getinfo demoRepo "/head/zzz" = .error (.resourceNotFound "head/zzz") := rfl
example : GitFS.getinfo demoRepo "/head/LICENSE/x" =
  .error (.resourceNotFound "head/LICENSE/x") := rfl
example : GitFS.scandir demoRepo "/head" (some (1, 2)) =
  .ok [GitInfo licenseBlob.raw none] := rfl

/-! ## Helper lemmas -/

theorem splitOnChar_no_occ (c : Char) (l : List Char) (h : ∀ x ∈ l, x ≠ c) :
    splitOnChar c l = [l] := by
  induction l with
  | nil => rfl
  | cons x xs ih =>
    unfold splitOnChar
    rw [if_neg (h x (by simp))]
    rw [ih (fun y hy => h y (by simp [hy]))]

theorem dropWhile_no_slash (l : List Char) (h : ∀ x ∈ l, x ≠ '/') :
    l.dropWhile (fun c => c = '/') = l := by
  cases l with
  | nil => rfl
  | cons x xs =>
    rw [List.dropWhile_cons]
    simp [h x (by simp)]

theorem pyStripSlashes_eq_self (s : String) (h : ∀ x ∈ s.data, x ≠ '/') :
    pyStripSlashes s = s := by
  unfold pyStripSlashes
  rw [dropWhile_no_slash s.data h,
    dropWhile_no_slash s.data.reverse (fun y hy => h y (List.mem_reverse.mp hy)),
    List.reverse_reverse]

theorem pySplitSlash_single (s : String) (h : ∀ x ∈ s.data, x ≠ '/') :
    pySplitSlash s = [s] := by
  unfold pySplitSlash
  rw [splitOnChar_no_occ '/' s.data h]
  rfl

theorem GTree.getChild_error (t : GTree) (n : String) (e : PyErr)
    (h : t.getChild n = .error e) : e = .keyError n := by
  unfold GTree.getChild at h
  cases h1 : t.trees.find? (fun c => c.name == n) with
  | some c => rw [h1] at h; exact Except.noConfusion h
  | none =>
    rw [h1] at h
    cases h2 : t.blobs.find? (fun b => b.name == n) with
    | some b => rw [h2] at h; exact Except.noConfusion h
    | none => rw [h2] at h; cases h; rfl

theorem iterableGet_error {α : Type} (getName : α → String) (xs : List α)
    (n : String) (e : PyErr) (h : iterableGet getName xs n = .error e) :
    e = .indexError := by
  unfold iterableGet at h
  cases h1 : xs.find? (fun x => getName x == n) with
  | some x => rw [h1] at h; exact Except.noConfusion h
  | none => rw [h1] at h; cases h; rfl


/-- The errors a single `get` step can raise are the raw collaborator
failures, never a `FileExists`. -/
theorem GitObject.get_error_not_fileExists (o : GitObject) (n : String) (e : PyErr)
    (h : o.get n = .error e) : e.isFileExists = false := by
  cases o with
  | root repo =>
    simp only [GitObject.get] at h
    unfold RootDir.get at h
    cases hl : (rootChildren repo).lookup n with
    | some v => rw [hl] at h; exact Except.noConfusion h
    | none => rw [hl] at h; cases h; rfl
  | blob b => cases h; rfl
  | treeDir nm c t =>
    simp only [GitObject.get] at h
    cases hc : t.getChild n with
    | ok v =>
      rw [hc] at h
      cases v with
      | inl s => exact Except.noConfusion h
      | inr b => exact Except.noConfusion h
    | error e2 =>
      rw [hc] at h
      cases h
      rw [GTree.getChild_error t n e hc]
      rfl
  | refsDir nm refs =>
    simp only [GitObject.get] at h
    cases hc : iterableGet Ref.name refs n with
    | ok r => rw [hc] at h; exact Except.noConfusion h
    | error e2 =>
      rw [hc] at h
      cases h
      rw [iterableGet_error Ref.name refs n e hc]
      rfl
  | remotesDir nm remotes =>
    simp only [GitObject.get] at h
    cases hc : iterableGet Remote.name remotes n with
    | ok r => rw [hc] at h; exact Except.noConfusion h
    | error e2 =>
      rw [hc] at h
      cases h
      rw [iterableGet_error Remote.name remotes n e hc]
      rfl
  | objectsDir nm repo => cases h; rfl

theorem walkPath_error_not_fileExists (parts : List String) (o : GitObject)
    (e : PyErr) (h : walkPath o parts = .error e) : e.isFileExists = false := by
  induction parts generalizing o with
  | nil => exact Except.noConfusion h
  | cons p rest ih =>
    unfold walkPath at h
    cases hg : o.get p with
    | ok next => rw [hg] at h; exact ih next h
    | error e2 =>
      rw [hg] at h
      cases h
      exact GitObject.get_error_not_fileExists o p e hg

theorem GitFS.getObjByPath_error_not_fileExists (repo : Repo) (path : String)
    (e : PyErr) (h : GitFS.getObjByPath repo path = .error e) :
    e.isFileExists = false := by
  unfold GitFS.getObjByPath at h
  split at h
  · exact Except.noConfusion h
  · rename_i e2 heq
    split at h
    · cases h; rfl
    · cases h
      split at heq
      · exact Except.noConfusion heq
      · exact walkPath_error_not_fileExists _ _ _ heq

theorem normpath_error (path : String) (e : PyErr) (h : normpath path = .error e) :
    e = .illegalBackReference path := by
  unfold normpath at h
  split at h
  · exact Except.noConfusion h
  · split at h
    · cases h; rfl
    · exact Except.noConfusion h

theorem validatepath_error_not_fileExists (path : String) (e : PyErr)
    (h : validatepath path = .error e) : e.isFileExists = false := by
  unfold validatepath at h
  split at h
  · cases h; rfl
  · cases hn : normpath path with
    | error e2 =>
      rw [hn] at h
      cases h
      rw [normpath_error path e hn]
      rfl
    | ok p => rw [hn] at h; exact Except.noConfusion h

theorem GitFS.openbin_error_not_fileExists (repo : Repo) (path mode : String)
    (e : PyErr) (h : GitFS.openbin repo path mode = .error e) :
    e.isFileExists = false := by
  unfold GitFS.openbin at h
  split at h
  · rename_i e2 heq
    cases h
    exact validatepath_error_not_fileExists path e heq
  · rename_i vp heq
    split at h
    · rename_i e2 heq2
      cases h
      exact GitFS.getObjByPath_error_not_fileExists repo vp e heq2
    · rename_i obj heq2
      cases obj <;> simp only [GitObject.openbin] at h <;>
        first
        | exact Except.noConfusion h
        | (cases h; rfl)

/-! ## Claim theorems -/

/-- C1 (code bug): operations on paths under `/objects` do not fail with a
taxonomy error: `ObjectsDir.get` evaluates the nonexistent attribute
`self.remotes`, and the resulting `AttributeError` is not in the
`except (IndexError, KeyError, NotImplementedError)` clause of
`_get_obj_by_path`, so the raw failure escapes `exists` and `getinfo`
instead of a `ResourceNotFound`. -/
theorem GitFS.objects_lookup_leaks_attributeError :
    GitFS.exists demoRepo "/objects/x" = .error (.attributeError "remotes") ∧
    GitFS.getinfo demoRepo "/objects/x" = .error (.attributeError "remotes") ∧
    PyErr.isTaxonomy (.attributeError "remotes") = false :=
  ⟨rfl, rfl, rfl⟩

/-- C2 (code bug): `scandir` on a path resolving to a blob does not fail
with `DirectoryExpected`: the guard `hasattr(obj, "scandir")` is always
true (the abstract base class defines `scandir`), so the node's
`NotImplementedError` escapes untranslated — unlike `listdir`, which
catches it and raises `DirectoryExpected` as documented. -/
theorem GitFS.scandir_on_blob_leaks_notImplementedError :
    GitFS.scandir demoRepo "/head/LICENSE" none = .error .notImplementedError ∧
    PyErr.isTaxonomy .notImplementedError = false ∧
    GitFS.listdir demoRepo "/head/LICENSE" = .error (.directoryExpected "/head/LICENSE") :=
  ⟨rfl, rfl, rfl⟩

/-- C3 (code bug): the intermediate/terminal asymmetry fails on paths
through `/objects`: the intermediate segment `x` of `/objects/x/y` names a
missing child, yet the operation fails with the raw `AttributeError` from
`ObjectsDir.get` instead of `ResourceNotFound`.  Elsewhere the asymmetry
holds as claimed: a missing intermediate child and a segment after a blob
give `ResourceNotFound`, while a wrong-kind final segment gives
`DirectoryExpected` (listing) or `FileExpected` (open). -/
theorem GitFS.intermediate_segment_asymmetry :
    GitFS.listdir demoRepo "/objects/x/y" = .error (.attributeError "remotes") ∧
    GitFS.listdir demoRepo "/head/x/y" = .error (.resourceNotFound "head/x/y") ∧
    GitFS.listdir demoRepo "/head/LICENSE/x" =
      .error (.resourceNotFound "head/LICENSE/x") ∧
    GitFS.openbin demoRepo "/head" "r" = .error (.fileExpected "/head") :=
  ⟨rfl, rfl, rfl, rfl⟩

/-- C4: each of the four mutating facade operations fails with
`ResourceReadOnly` on every repository and every path (the raise precedes
any resolution, so nonexistent paths behave the same); as pure functions of
the repository they cannot change any state. -/
theorem GitFS.mutating_ops_read_only (repo : Repo) (path : String)
    (permissions : Option Nat) (recreate : Bool) (info : Info) :
    GitFS.makedir repo path permissions recreate = .error (.resourceReadOnly path) ∧
    GitFS.remove repo path = .error (.resourceReadOnly path) ∧
    GitFS.removedir repo path = .error (.resourceReadOnly path) ∧
    GitFS.setinfo repo path info = .error (.resourceReadOnly path) :=
  ⟨rfl, rfl, rfl, rfl⟩

/-- C7: enumerating a tree directory yields the descriptors of all
sub-trees (directories) first, then those of all blobs (files), each group
in the store's native order, with correct directory flags and no
reordering. -/
theorem TreeDir.scandir_trees_before_blobs (name : String) (commit : Commit)
    (t : GTree) :
    ∃ ds bs : List Info,
      (GitObject.treeDir name commit t).scandir = .ok (ds ++ bs) ∧
      ds = t.trees.map (fun sub => GitInfo sub.raw none) ∧
      bs = t.blobs.map (fun b => GitInfo b.raw none) ∧
      (∀ i ∈ ds, i.is_dir = true) ∧
      (∀ i ∈ bs, i.is_dir = false) := by
  refine ⟨_, _, rfl, rfl, rfl, ?_, ?_⟩
  · intro i hi
    simp only [List.mem_map] at hi
    obtain ⟨sub, _, rfl⟩ := hi
    rfl
  · intro i hi
    simp only [List.mem_map] at hi
    obtain ⟨b, _, rfl⟩ := hi
    rfl

/-- C8: an opened content stream reports readable and not writable, and
`write`/`writelines` fail with `UnsupportedOperation` for every argument
and every stream state, returning the stream state (position and contents)
unchanged. -/
theorem GitFile.read_only_stream (f : GitFile) (data : List Nat)
    (lines : List (List Nat)) :
    f.readable = true ∧ f.writable = false ∧
    f.write data = (.error (.unsupportedOperation "write"), f) ∧
    f.writelines lines = (.error (.unsupportedOperation "write"), f) :=
  ⟨rfl, rfl, rfl, rfl⟩

/-- C9 counterexample: the details type enum of a directory descriptor is
1, not 2, and that of a file descriptor is 2, not 1 (pyfilesystem2 declares
`ResourceType.directory = 1`, `ResourceType.file = 2`; the code stores
`int(ResourceType.directory)` for non-blobs). -/
theorem GitInfo.type_enum_counterexample :
    (GitInfo ⟨"src", "tree", 30, 16384⟩ none).typ = 1 ∧
    (GitInfo ⟨"src", "tree", 30, 16384⟩ none).typ ≠ 2 ∧
    (GitInfo ⟨"LICENSE", "blob", 11, 33188⟩ none).typ = 2 ∧
    (GitInfo ⟨"LICENSE", "blob", 11, 33188⟩ none).typ ≠ 1 := by
  refine ⟨rfl, ?_, rfl, ?_⟩ <;> decide

/-- C9 (amended): the descriptor's basic name is the object's native name
when non-empty and the override name otherwise; `is_dir` holds exactly when
the kind is not blob; the details type enum is 1 for directories and 2 for
files; and `is_writeable` is false for every namespace and key. -/
theorem GitInfo.fields_spec (obj : RawObj) (override : Option String) :
    (obj.name ≠ "" → (GitInfo obj override).name = some obj.name) ∧
    (obj.name = "" → (GitInfo obj override).name = override) ∧
    ((GitInfo obj override).is_dir = true ↔ obj.type ≠ "blob") ∧
    (obj.type ≠ "blob" → (GitInfo obj override).typ = 1) ∧
    (obj.type = "blob" → (GitInfo obj override).typ = 2) ∧
    (∀ namespc key : String, (GitInfo obj override).is_writeable namespc key = false) := by
  refine ⟨?_, ?_, ?_, ?_, ?_, fun _ _ => rfl⟩
  · intro h
    simp [GitInfo, h]
  · intro h
    simp [GitInfo, h]
  · simp [GitInfo]
  · intro h
    simp [GitInfo, ResourceTypeDirectory, h]
  · intro h
    simp [GitInfo, ResourceTypeFile, h]

/-- C9 witness: `GitInfo.fields_spec` applied to a concrete blob object
with an override name and a concrete name-less tree object. -/
theorem GitInfo.fields_spec_witness :
    (GitInfo ⟨"LICENSE", "blob", 11, 33188⟩ (some "x")).name = some "LICENSE" ∧
    (GitInfo ⟨"", "tree", 62, 16384⟩ (some "head")).name = some "head" ∧
    (GitInfo ⟨"", "tree", 62, 16384⟩ (some "head")).typ = 1 ∧
    (GitInfo ⟨"LICENSE", "blob", 11, 33188⟩ (some "x")).typ = 2 ∧
    (GitInfo ⟨"LICENSE", "blob", 11, 33188⟩ (some "x")).is_writeable "basic" "name" = false :=
  ⟨(GitInfo.fields_spec ⟨"LICENSE", "blob", 11, 33188⟩ (some "x")).1 (by decide),
   (GitInfo.fields_spec ⟨"", "tree", 62, 16384⟩ (some "head")).2.1 rfl,
   (GitInfo.fields_spec ⟨"", "tree", 62, 16384⟩ (some "head")).2.2.2.1 (by decide),
   (GitInfo.fields_spec ⟨"LICENSE", "blob", 11, 33188⟩ (some "x")).2.2.2.2.1 rfl,
   (GitInfo.fields_spec ⟨"LICENSE", "blob", 11, 33188⟩ (some "x")).2.2.2.2.2 "basic" "name"⟩

theorem rootChildren_lookup_none (repo : Repo) (n : String)
    (h : n ∉ rootChildrenNames) : (rootChildren repo).lookup n = none := by
  simp only [rootChildrenNames, List.mem_cons, List.not_mem_nil, or_false, not_or] at h
  obtain ⟨h1, h2, h3, h4, h5⟩ := h
  have e1 : (n == "head") = false := beq_eq_false_iff_ne.mpr h1
  have e2 : (n == "tags") = false := beq_eq_false_iff_ne.mpr h2
  have e3 : (n == "branches") = false := beq_eq_false_iff_ne.mpr h3
  have e4 : (n == "remotes") = false := beq_eq_false_iff_ne.mpr h4
  have e5 : (n == "objects") = false := beq_eq_false_iff_ne.mpr h5
  simp [rootChildren, List.lookup, e1, e2, e3, e4, e5]

/-- C5: for a repository with a HEAD commit (whose root tree carries the
empty native name, as in git), the root resolves to a directory, its
enumerated children are exactly head, tags, branches, remotes, objects in
declared order, and any other (slash-free, non-empty) name at the root
fails with `ResourceNotFound`. -/
theorem RootDir.info_children_unknown (repo : Repo)
    (hname : repo.headCommit.tree.name = "") :
    (GitFS.getinfo repo "/").map Info.is_dir = .ok true ∧
    GitFS.listdir repo "/" =
      .ok [some "head", some "tags", some "branches", some "remotes", some "objects"] ∧
    ∀ n : String, n ∉ rootChildrenNames → n ≠ "" → (∀ c ∈ n.data, c ≠ '/') →
      GitFS.getinfo repo n = .error (.resourceNotFound n) := by
  refine ⟨rfl, ?_, ?_⟩
  · obtain ⟨⟨t⟩, tags, branches, remotes⟩ := repo
    obtain ⟨tn, ts, tm, ttrees, tblobs⟩ := t
    simp only [GTree.name] at hname
    subst hname
    rfl
  · intro n hmem hne hslash
    have hstrip : pyStripSlashes n = n := pyStripSlashes_eq_self n hslash
    have hsplit : pySplitSlash n = [n] := pySplitSlash_single n hslash
    have hlook := rootChildren_lookup_none repo n hmem
    simp only [GitFS.getinfo, GitFS.getObjByPath, hstrip, if_neg hne, hsplit, walkPath,
      GitObject.get, RootDir.get, hlook, caughtByGetObj, if_true]

/-- C5 witness: `RootDir.info_children_unknown` at the demo repository and
the unknown root name `"zzz"`. -/
theorem RootDir.info_children_unknown_witness :
    (GitFS.getinfo demoRepo "/").map Info.is_dir = .ok true ∧
    GitFS.listdir demoRepo "/" =
      .ok [some "head", some "tags", some "branches", some "remotes", some "objects"] ∧
    GitFS.getinfo demoRepo "zzz" = .error (.resourceNotFound "zzz") := by
  have h := RootDir.info_children_unknown demoRepo rfl
  exact ⟨h.1, h.2.1, h.2.2 "zzz" (by decide) (by decide) (by decide)⟩

/-- C6: whenever `scandir` (unpaged) succeeds with a sequence of
descriptors, `listdir` succeeds with exactly their names in the same order.
Both operations are pure functions of the repository and path, so repeated
invocations are literally the same value (no cross-call state exists). -/
theorem GitFS.listdir_refines_scandir (repo : Repo) (path : String)
    (infos : List Info) (h : GitFS.scandir repo path none = .ok infos) :
    GitFS.listdir repo path = .ok (infos.map Info.name) := by
  unfold GitFS.scandir at h
  split at h
  · exact Except.noConfusion h
  · rename_i obj heq
    split at h
    · split at h
      · exact Except.noConfusion h
      · rename_i result heq2
        replace h : (Except.ok result : Except PyErr (List Info)) = .ok infos := h
        cases h
        simp only [GitFS.listdir, heq, heq2]
    · rename_i hfalse
      exact absurd rfl hfalse

/-- C6 witness: `GitFS.listdir_refines_scandir` at the demo repository's
root, whose `scandir` yields `demoRootInfos`. -/
theorem GitFS.listdir_refines_scandir_witness :
    GitFS.listdir demoRepo "/" =
      .ok [some "head", some "tags", some "branches", some "remotes", some "objects"] :=
  GitFS.listdir_refines_scandir demoRepo "/" demoRootInfos rfl

/-- C10: `openbin` never consults its mode argument — any two modes give
the same result; a successful open yields a non-writable stream; and no
mode (including exclusive mode) can produce a `FileExists` error. -/
theorem GitFS.openbin_ignores_mode (repo : Repo) (path : String)
    (mode alt : String) :
    GitFS.openbin repo path mode = GitFS.openbin repo path alt ∧
    (∀ f : GitFile, GitFS.openbin repo path mode = .ok f → f.writable = false) ∧
    (∀ p : String, GitFS.openbin repo path mode ≠ .error (.fileExists p)) := by
  refine ⟨rfl, fun f _ => rfl, fun p hp => ?_⟩
  have hfe := GitFS.openbin_error_not_fileExists repo path mode (.fileExists p) hp
  exact absurd hfe (by simp [PyErr.isFileExists])

/-- C10 witness: `GitFS.openbin_ignores_mode` at the demo repository's
`/head/LICENSE` blob, with write and exclusive modes. -/
theorem GitFS.openbin_ignores_mode_witness :
    GitFS.openbin demoRepo "/head/LICENSE" "w" = GitFS.openbin demoRepo "/head/LICENSE" "r" ∧
    GitFile.writable ⟨[77, 73, 84], 0⟩ = false ∧
    GitFS.openbin demoRepo "/head/LICENSE" "x" ≠ .error (.fileExists "/head/LICENSE") :=
  ⟨(GitFS.openbin_ignores_mode demoRepo "/head/LICENSE" "w" "r").1,
   (GitFS.openbin_ignores_mode demoRepo "/head/LICENSE" "w" "r").2.1 ⟨[77, 73, 84], 0⟩ rfl,
   (GitFS.openbin_ignores_mode demoRepo "/head/LICENSE" "x" "r").2.2 "/head/LICENSE"⟩
